import Mathlib

/-!
Shallow embedding of the floating-body motion system of the moonmusic scene:
the per-frame update rule of a FloatingObject (velocity damping, one-sided
gravity toward the moon center, pointer repulsion with linear falloff,
pairwise local avoidance against the shared registry, explicit Euler
integration, a soft surface constraint, and the registry commit), together
with the Scene initial layout generator.  Vectors are triples of reals
mirroring THREE.Vector3 and the method semantics the source uses; in
particular Vector3.normalize divides by the length unless the length is
zero, in which case it divides by one, so a zero-length vector normalizes
to itself (the zero vector).
-/

noncomputable section

open Classical

/-- A 3-component vector, mirroring THREE.Vector3. -/
@[ext]
structure Vec3 where
  x : ℝ
  y : ℝ
  z : ℝ

namespace Vec3

/-- Vector3.add, componentwise. -/
def add (a b : Vec3) : Vec3 := ⟨a.x + b.x, a.y + b.y, a.z + b.z⟩

/-- Vector3.sub, componentwise. -/
def sub (a b : Vec3) : Vec3 := ⟨a.x - b.x, a.y - b.y, a.z - b.z⟩

/-- Vector3.multiplyScalar. -/
def multiplyScalar (a : Vec3) (s : ℝ) : Vec3 := ⟨a.x * s, a.y * s, a.z * s⟩

/-- Vector3.divideScalar: multiplication by the reciprocal. -/
def divideScalar (a : Vec3) (s : ℝ) : Vec3 := a.multiplyScalar (1 / s)

/-- Vector3.length: the Euclidean norm. -/
def length (a : Vec3) : ℝ := Real.sqrt (a.x ^ 2 + a.y ^ 2 + a.z ^ 2)

/-- Vector3.distanceTo. -/
def distanceTo (a b : Vec3) : ℝ := (a.sub b).length

/-- Vector3.normalize: divideScalar(length() || 1), so a zero-length vector
is divided by one and stays the zero vector. -/
def normalize (a : Vec3) : Vec3 :=
  a.divideScalar (if a.length = 0 then 1 else a.length)

/-- Vector3.lerp: this += (v - this) * alpha, componentwise. -/
def lerp (a v : Vec3) (alpha : ℝ) : Vec3 := a.add ((v.sub a).multiplyScalar alpha)

/-- The zero vector. -/
def zero : Vec3 := ⟨0, 0, 0⟩

end Vec3

/-- MOON_RADIUS = 3. -/
def MOON_RADIUS : ℝ := 3

/-- GRAVITY_STRENGTH = 0.02. -/
def GRAVITY_STRENGTH : ℝ := 0.02

/-- REPULSION_STRENGTH = 0.3. -/
def REPULSION_STRENGTH : ℝ := 0.3

/-- DAMPING = 0.95. -/
def DAMPING : ℝ := 0.95

/-- MOUSE_INFLUENCE_RADIUS = 4. -/
def MOUSE_INFLUENCE_RADIUS : ℝ := 4

/-- OBJECT_SPACING = 0.6. -/
def OBJECT_SPACING : ℝ := 0.6

/-- calculateDistance = pos1.distanceTo(pos2). -/
def calculateDistance (pos1 pos2 : Vec3) : ℝ := pos1.distanceTo pos2

/-- The moon center, new Vector3(0, 0, 0). -/
def moonCenter : Vec3 := Vec3.zero

/-- velocity.multiplyScalar(DAMPING): the per-frame damping. -/
def dampStep (velocity : Vec3) : Vec3 := velocity.multiplyScalar DAMPING

/-- One-sided gravity: if distanceToMoon > MOON_RADIUS, add the unit vector
toward the center scaled by GRAVITY_STRENGTH to the velocity. -/
def gravityStep (objectPosition velocity : Vec3) : Vec3 :=
  if calculateDistance objectPosition moonCenter > MOON_RADIUS then
    velocity.add (((moonCenter.sub objectPosition).normalize).multiplyScalar GRAVITY_STRENGTH)
  else velocity

/-- Pointer repulsion: if distanceToMouse < MOUSE_INFLUENCE_RADIUS, add the
unit vector away from the mouse scaled by
REPULSION_STRENGTH * (1 - distanceToMouse / MOUSE_INFLUENCE_RADIUS). -/
def mouseStep (mousePosition objectPosition velocity : Vec3) : Vec3 :=
  if calculateDistance objectPosition mousePosition < MOUSE_INFLUENCE_RADIUS then
    velocity.add (((objectPosition.sub mousePosition).normalize).multiplyScalar
      (REPULSION_STRENGTH *
        (1 - calculateDistance objectPosition mousePosition / MOUSE_INFLUENCE_RADIUS)))
  else velocity

/-- The allObjects.forEach avoidance loop: every other registry entry closer
than OBJECT_SPACING adds a 0.02-scaled unit vector away from it. -/
def avoidStep (index : ℕ) (allObjects : List Vec3) (objectPosition velocity : Vec3) : Vec3 :=
  allObjects.enum.foldl
    (fun vel pair =>
      if pair.1 ≠ index then
        if calculateDistance objectPosition pair.2 < OBJECT_SPACING then
          vel.add (((objectPosition.sub pair.2).normalize).multiplyScalar 0.02)
        else vel
      else vel)
    velocity

/-- The whole per-frame update of one FloatingObject: returns the new mesh
position and velocity.  distanceToMoon is measured on the frame-start
position before any force or integration; the surface-snap trigger reuses
that pre-integration distanceToMoon, while the shell point is built from the
already-integrated live position (objectPosition aliases mesh.position,
which has just received mesh.position.add(velocity)). -/
def updateBody (index : ℕ) (allObjects : List Vec3)
    (mousePosition objectPosition velocity : Vec3) : Vec3 × Vec3 :=
  let distanceToMoon := calculateDistance objectPosition moonCenter
  let v1 := dampStep velocity
  let v2 := gravityStep objectPosition v1
  let v3 := mouseStep mousePosition objectPosition v2
  let v4 := avoidStep index allObjects objectPosition v3
  let p1 := objectPosition.add v4
  if distanceToMoon < MOON_RADIUS + 0.5 then
    (p1.lerp ((p1.normalize).multiplyScalar (MOON_RADIUS + 0.5)) 0.2,
     v4.multiplyScalar 0.8)
  else (p1, v4)

/-- The damping plus the three force accumulations, without the integration
and surface constraint: the velocity the body carries into
mesh.position.add(velocity). -/
def forcesVelocity (index : ℕ) (allObjects : List Vec3)
    (mousePosition objectPosition velocity : Vec3) : Vec3 :=
  avoidStep index allObjects objectPosition
    (mouseStep mousePosition objectPosition
      (gravityStep objectPosition (dampStep velocity)))

/-- Modelled from the spec sentence of claim C1, for comparison with the
source behavior: the same update, but with the surface-snap trigger measured
on the position after the position += velocity integration instead of the
frame-start position. -/
def updateBodyPostTrigger (index : ℕ) (allObjects : List Vec3)
    (mousePosition objectPosition velocity : Vec3) : Vec3 × Vec3 :=
  let v4 := forcesVelocity index allObjects mousePosition objectPosition velocity
  let p1 := objectPosition.add v4
  if calculateDistance p1 moonCenter < MOON_RADIUS + 0.5 then
    (p1.lerp ((p1.normalize).multiplyScalar (MOON_RADIUS + 0.5)) 0.2,
     v4.multiplyScalar 0.8)
  else (p1, v4)

/-- One frame: every body is updated in ascending index order against the
live shared registry (Scene mounts the FloatingObjects in index order and
each useFrame commits allObjects[index].copy(mesh.position) before any later
body runs). -/
def framePass (mousePosition : Vec3) (positions velocities : List Vec3) :
    List Vec3 × List Vec3 :=
  (List.range positions.length).foldl
    (fun st i =>
      let r := updateBody i st.1 mousePosition (st.1.getD i Vec3.zero) (st.2.getD i Vec3.zero)
      (st.1.set i r.1, st.2.set i r.2))
    (positions, velocities)

/-- One body position of the Scene initial layout.  Math.random() is
modelled as a stream rng of reals in [0, 1); the k-th call of the session is
rng k, and each loop iteration consumes two calls, one for the ring radius
and one for the vertical offset. -/
def layoutPosition (rng : ℕ → ℝ) (layer i : ℕ) : Vec3 :=
  let objectsInLayer : ℕ := 48 / 3
  let layerOffset : ℝ := (layer : ℝ) * 1.5
  let angle : ℝ := ((i : ℝ) / (objectsInLayer : ℝ)) * Real.pi * 2
  let radius : ℝ := 5 + rng (2 * (layer * objectsInLayer + i)) * 2
  let yCoord : ℝ := (rng (2 * (layer * objectsInLayer + i) + 1) - 0.5) * 4 + layerOffset
  ⟨Real.cos angle * radius, yCoord, Real.sin angle * radius⟩

/-- The full generated registry contents: 3 layers of floor(48 / 3) bodies
pushed in loop order. -/
def generatePositions (rng : ℕ → ℝ) : List Vec3 :=
  (List.range 3).foldl
    (fun positions layer =>
      positions ++ (List.range (48 / 3)).map (fun i => layoutPosition rng layer i))
    []

/-- The horizontal distance of a point from the vertical (y) axis, the
observable the layout places on rings of radius 5 to 7. -/
def axisDistance (p : Vec3) : ℝ := Real.sqrt (p.x ^ 2 + p.z ^ 2)

/-- The per-body React state visible to the frame callback: the mesh
position, the velocity ref, and the isHovered flag. -/
structure ObjState where
  position : Vec3
  velocity : Vec3
  isHovered : Bool

/-- The useSpring scale target: isHovered ? 1.1 : 1. -/
def scaleTarget (isHovered : Bool) : ℝ := if isHovered then 1.1 else 1

/-- One useFrame invocation for one body at the level of its whole component
state: the motion update plus the registry commit.  The isHovered flag is
not read by the frame callback; it only drives the spring scale target and
material colors of the rendered output. -/
def objFrame (index : ℕ) (allObjects : List Vec3) (mousePosition : Vec3)
    (s : ObjState) : ObjState × List Vec3 :=
  let r := updateBody index allObjects mousePosition s.position s.velocity
  (⟨r.1, r.2, s.isHovered⟩, allObjects.set index r.1)

namespace Vec3

/-- Adding the zero vector is the identity. -/
lemma add_zero_vec (a : Vec3) : a.add zero = a := by
  ext <;> simp [add, zero]

/-- distanceTo unfolded to a square root of a sum of squares. -/
lemma distanceTo_eq (a b : Vec3) :
    a.distanceTo b = Real.sqrt ((a.x - b.x) ^ 2 + (a.y - b.y) ^ 2 + (a.z - b.z) ^ 2) := rfl

/-- A distance is strictly below c when the sum of squares is below c ^ 2. -/
lemma distanceTo_lt (a b : Vec3) (c : ℝ) (hc : 0 < c)
    (h : (a.x - b.x) ^ 2 + (a.y - b.y) ^ 2 + (a.z - b.z) ^ 2 < c ^ 2) :
    a.distanceTo b < c := by
  rw [distanceTo_eq]
  exact (Real.sqrt_lt' hc).mpr h

/-- A distance is strictly above c when the sum of squares is above c ^ 2. -/
lemma distanceTo_gt (a b : Vec3) (c : ℝ)
    (h : c ^ 2 < (a.x - b.x) ^ 2 + (a.y - b.y) ^ 2 + (a.z - b.z) ^ 2) :
    c < a.distanceTo b := by
  rw [distanceTo_eq]
  exact Real.lt_sqrt_of_sq_lt h

/-- A distance is at least c when the sum of squares is at least c ^ 2. -/
lemma distanceTo_not_lt (a b : Vec3) (c : ℝ)
    (h : c ^ 2 ≤ (a.x - b.x) ^ 2 + (a.y - b.y) ^ 2 + (a.z - b.z) ^ 2) :
    ¬ a.distanceTo b < c := by
  rw [distanceTo_eq]
  exact not_lt.mpr (Real.le_sqrt_of_sq_le h)

/-- Evaluates a distance whose sum of squares is a perfect square. -/
lemma distanceTo_val (a b : Vec3) (c : ℝ) (hc : 0 ≤ c)
    (h : (a.x - b.x) ^ 2 + (a.y - b.y) ^ 2 + (a.z - b.z) ^ 2 = c ^ 2) :
    a.distanceTo b = c := by
  rw [distanceTo_eq, h, Real.sqrt_sq hc]

/-- Evaluates a length whose sum of squares is a perfect square. -/
lemma length_val (a : Vec3) (c : ℝ) (hc : 0 ≤ c)
    (h : a.x ^ 2 + a.y ^ 2 + a.z ^ 2 = c ^ 2) : a.length = c := by
  rw [length, h, Real.sqrt_sq hc]

/-- The length of a scalar multiple. -/
lemma length_multiplyScalar (a : Vec3) (s : ℝ) :
    (a.multiplyScalar s).length = |s| * a.length := by
  simp only [multiplyScalar, length]
  rw [show (a.x * s) ^ 2 + (a.y * s) ^ 2 + (a.z * s) ^ 2
        = s ^ 2 * (a.x ^ 2 + a.y ^ 2 + a.z ^ 2) by ring,
      Real.sqrt_mul (sq_nonneg s), Real.sqrt_sq_eq_abs]

/-- The zero vector has length zero. -/
lemma length_zero_vec : (zero : Vec3).length = 0 := by
  simp [zero, length, Real.sqrt_eq_zero']

/-- A vector of length zero is the zero vector. -/
lemma eq_zero_of_length_eq_zero (a : Vec3) (h : a.length = 0) : a = zero := by
  rw [length, Real.sqrt_eq_zero' ] at h
  have hx : a.x ^ 2 + a.y ^ 2 + a.z ^ 2 = 0 :=
    le_antisymm h (by positivity)
  have h1 : a.x = 0 := by nlinarith [sq_nonneg a.x, sq_nonneg a.y, sq_nonneg a.z]
  have h2 : a.y = 0 := by nlinarith [sq_nonneg a.x, sq_nonneg a.y, sq_nonneg a.z]
  have h3 : a.z = 0 := by nlinarith [sq_nonneg a.x, sq_nonneg a.y, sq_nonneg a.z]
  ext <;> simp [zero, h1, h2, h3]

/-- Scaling the zero vector gives the zero vector. -/
lemma zero_multiplyScalar (s : ℝ) : (zero : Vec3).multiplyScalar s = zero := by
  ext <;> simp [zero, multiplyScalar]

/-- Adding on the left of the zero vector is the identity. -/
lemma zero_add_vec (a : Vec3) : (zero : Vec3).add a = a := by
  ext <;> simp [add, zero]

/-- Subtracting a vector from itself gives the zero vector. -/
lemma sub_self_vec (a : Vec3) : a.sub a = zero := by
  ext <;> simp [sub, zero]

/-- Cancellation: (a + b) - a = b. -/
lemma add_sub_cancel_vec (a b : Vec3) : (a.add b).sub a = b := by
  ext <;> simp [add, sub]

/-- The distance is symmetric in the difference: same length both ways. -/
lemma sub_length_comm (a b : Vec3) : (a.sub b).length = (b.sub a).length := by
  simp only [sub, length]
  ring_nf

/-- A zero-length vector normalizes to itself. -/
lemma normalize_of_length_zero (a : Vec3) (h : a.length = 0) : a.normalize = a := by
  rw [normalize, if_pos h, divideScalar]
  ext <;> simp [multiplyScalar]

/-- A nonzero vector normalizes to a unit vector. -/
lemma length_normalize (a : Vec3) (h : a.length ≠ 0) : a.normalize.length = 1 := by
  have hpos : 0 < a.length := lt_of_le_of_ne (Real.sqrt_nonneg _) (Ne.symm h)
  rw [normalize, if_neg h, divideScalar, length_multiplyScalar,
      abs_of_pos (by positivity), one_div, inv_mul_cancel₀ h]

end Vec3

/-- A fold that never changes its accumulator returns it unchanged. -/
lemma foldl_fixed_of_id {α β : Type} (f : α → β → α) (l : List β) (a : α)
    (h : ∀ acc b, b ∈ l → f acc b = acc) : l.foldl f a = a := by
  induction l generalizing a with
  | nil => rfl
  | cons hd tl ih =>
      rw [List.foldl_cons, h a hd (List.mem_cons_self hd tl)]
      exact ih a fun acc b hb => h acc b (List.mem_cons_of_mem hd hb)

/-- The distance of a point to itself is zero. -/
lemma calculateDistance_self (p : Vec3) : calculateDistance p p = 0 := by
  rw [calculateDistance, Vec3.distanceTo, Vec3.sub_self_vec, Vec3.length_zero_vec]

/-- An avoidance nudge against a coincident body adds nothing. -/
lemma avoid_nudge_self (p vel : Vec3) :
    vel.add (((p.sub p).normalize).multiplyScalar 0.02) = vel := by
  rw [Vec3.sub_self_vec, Vec3.normalize_of_length_zero _ Vec3.length_zero_vec,
      Vec3.zero_multiplyScalar, Vec3.add_zero_vec]

/-- Spec claim C7: under the damping step alone, every body's speed after n
updates equals 0.95 ^ n times its initial speed, and this converges to zero
as the frame count grows. -/
theorem damping_only_speed_geometric (v : Vec3) :
    (∀ n : ℕ, ((dampStep^[n]) v).length = DAMPING ^ n * v.length) ∧
    Filter.Tendsto (fun n : ℕ => ((dampStep^[n]) v).length)
      Filter.atTop (nhds 0) := by
  have key : ∀ n : ℕ, ((dampStep^[n]) v).length = DAMPING ^ n * v.length := by
    intro n
    induction n with
    | zero => simp
    | succ k ih =>
        rw [Function.iterate_succ_apply', dampStep, Vec3.length_multiplyScalar, ih,
            abs_of_pos (by norm_num [DAMPING])]
        ring
  refine ⟨key, ?_⟩
  have h1 : Filter.Tendsto (fun n : ℕ => DAMPING ^ n * v.length)
      Filter.atTop (nhds 0) := by
    have h0 : Filter.Tendsto (fun n : ℕ => DAMPING ^ n) Filter.atTop (nhds 0) :=
      tendsto_pow_atTop_nhds_zero_of_lt_one (by norm_num [DAMPING]) (by norm_num [DAMPING])
    simpa using h0.mul_const v.length
  exact h1.congr fun n => (key n).symm

/-- Spec claim C5: inside the influence radius (0 < d < 4) the update adds a
repulsion vector of magnitude 0.3 * (1 - d / 4) pointing from the influence
point toward the body; at d = 4 and beyond nothing is added. -/
theorem mouse_repulsion_falloff (m p v : Vec3) :
    (0 < calculateDistance p m → calculateDistance p m < 4 →
      mouseStep m p v =
        v.add (((p.sub m).normalize).multiplyScalar
          (0.3 * (1 - calculateDistance p m / 4))) ∧
      ((mouseStep m p v).sub v).length = 0.3 * (1 - calculateDistance p m / 4)) ∧
    (4 ≤ calculateDistance p m → mouseStep m p v = v) := by
  constructor
  · intro h0 h4
    have heq : mouseStep m p v =
        v.add (((p.sub m).normalize).multiplyScalar
          (0.3 * (1 - calculateDistance p m / 4))) := by
      rw [mouseStep, if_pos]
      · rw [REPULSION_STRENGTH, MOUSE_INFLUENCE_RADIUS]
      · rw [MOUSE_INFLUENCE_RADIUS]; exact h4
    refine ⟨heq, ?_⟩
    have hne : (p.sub m).length ≠ 0 := by
      have : (0 : ℝ) < (p.sub m).length := h0
      exact ne_of_gt this
    rw [heq, Vec3.add_sub_cancel_vec, Vec3.length_multiplyScalar,
        Vec3.length_normalize _ hne, mul_one, abs_of_nonneg]
    have hd : calculateDistance p m / 4 ≤ 1 := by linarith
    nlinarith
  · intro h4
    rw [mouseStep, if_neg]
    rw [MOUSE_INFLUENCE_RADIUS]
    exact not_lt.mpr h4

/-- Claim C5 witness: a body at distance 2 from the influence point receives
the falloff repulsion, and a body at distance exactly 4 receives nothing. -/
theorem mouse_repulsion_falloff_witness :
    (mouseStep Vec3.zero ⟨2, 0, 0⟩ Vec3.zero =
        (Vec3.zero).add ((((⟨2, 0, 0⟩ : Vec3).sub Vec3.zero).normalize).multiplyScalar
          (0.3 * (1 - calculateDistance ⟨2, 0, 0⟩ Vec3.zero / 4))) ∧
      ((mouseStep Vec3.zero ⟨2, 0, 0⟩ Vec3.zero).sub Vec3.zero).length =
        0.3 * (1 - calculateDistance ⟨2, 0, 0⟩ Vec3.zero / 4)) ∧
    mouseStep Vec3.zero ⟨4, 0, 0⟩ Vec3.zero = Vec3.zero := by
  constructor
  · exact (mouse_repulsion_falloff Vec3.zero ⟨2, 0, 0⟩ Vec3.zero).1
      (Vec3.distanceTo_gt _ _ 0 (by norm_num [Vec3.zero]))
      (Vec3.distanceTo_lt _ _ 4 (by norm_num) (by norm_num [Vec3.zero]))
  · exact (mouse_repulsion_falloff Vec3.zero ⟨4, 0, 0⟩ Vec3.zero).2
      (le_of_eq (Vec3.distanceTo_val _ _ 4 (by norm_num) (by norm_num [Vec3.zero])).symm)

/-- The second component of an enumFrom entry is an element of the list. -/
lemma snd_mem_of_mem_enumFrom {α : Type} :
    ∀ (l : List α) (n : ℕ) (b : ℕ × α), b ∈ l.enumFrom n → b.2 ∈ l := by
  intro l
  induction l with
  | nil => intro n b hb; cases hb
  | cons hd tl ih =>
      intro n b hb
      have hb' : b = (n, hd) ∨ b ∈ tl.enumFrom (n + 1) := List.mem_cons.mp hb
      rcases hb' with h | h
      · rw [h]
        exact List.mem_cons_self hd tl
      · exact List.mem_cons_of_mem hd (ih (n + 1) b h)

/-- The second component of an enum entry is an element of the list. -/
lemma snd_mem_of_mem_enum {α : Type} (l : List α) (b : ℕ × α)
    (hb : b ∈ l.enum) : b.2 ∈ l :=
  snd_mem_of_mem_enumFrom l 0 b hb

/-- Adding a nudge in the direction of a coincident point adds nothing, for
any scalar strength. -/
lemma nudge_coincident (p vel : Vec3) (s : ℝ) :
    vel.add (((p.sub p).normalize).multiplyScalar s) = vel := by
  rw [Vec3.sub_self_vec, Vec3.normalize_of_length_zero _ Vec3.length_zero_vec,
      Vec3.zero_multiplyScalar, Vec3.add_zero_vec]

/-- In a one-body registry a body skips itself in the avoidance loop. -/
lemma avoidStep_singleton_self (p w : Vec3) : avoidStep 0 [p] p w = w := by
  simp [avoidStep, List.enum, List.enumFrom]

/-- Spec claim C4: attraction is one-sided.  With the influence point out of
range and no other body, a body strictly outside the moon radius gets
normalize(center - position) * 0.02 added to its damped velocity (so from
rest it reaches speed 0.02 toward the center), while a body at distance at
most the moon radius gets no attraction term: its velocity changes only by
damping. -/
theorem attraction_one_sided (p v m : Vec3) (hm : 4 ≤ calculateDistance p m) :
    (calculateDistance p moonCenter > 3 →
      forcesVelocity 0 [p] m p v =
        (dampStep v).add (((moonCenter.sub p).normalize).multiplyScalar 0.02) ∧
      (v = Vec3.zero → (forcesVelocity 0 [p] m p v).length = 0.02)) ∧
    (calculateDistance p moonCenter ≤ 3 →
      forcesVelocity 0 [p] m p v = dampStep v) := by
  have hmouse : ∀ w : Vec3, mouseStep m p w = w := by
    intro w
    rw [mouseStep, if_neg]
    rw [MOUSE_INFLUENCE_RADIUS]
    exact not_lt.mpr hm
  constructor
  · intro hgt
    have hgrav : gravityStep p (dampStep v) =
        (dampStep v).add (((moonCenter.sub p).normalize).multiplyScalar 0.02) := by
      rw [gravityStep, if_pos]
      · rw [GRAVITY_STRENGTH]
      · rw [MOON_RADIUS]; exact hgt
    have hkey : forcesVelocity 0 [p] m p v =
        (dampStep v).add (((moonCenter.sub p).normalize).multiplyScalar 0.02) := by
      rw [forcesVelocity, hgrav, hmouse, avoidStep_singleton_self]
    refine ⟨hkey, ?_⟩
    intro hv
    subst hv
    have hne : (moonCenter.sub p).length ≠ 0 := by
      have h1 : (3 : ℝ) < (p.sub moonCenter).length := hgt
      rw [Vec3.sub_length_comm]
      linarith
    rw [hkey, dampStep, Vec3.zero_multiplyScalar, Vec3.zero_add_vec,
        Vec3.length_multiplyScalar, Vec3.length_normalize _ hne]
    norm_num
  · intro hle
    rw [forcesVelocity, gravityStep, if_neg, hmouse, avoidStep_singleton_self]
    rw [MOON_RADIUS]
    exact not_lt.mpr hle

/-- Claim C4 witness: a resting body at distance 10 gains speed 0.02 toward
the center; a body at distance 1 keeps only its damped velocity. -/
theorem attraction_one_sided_witness :
    (forcesVelocity 0 [⟨10, 0, 0⟩] ⟨110, 0, 0⟩ ⟨10, 0, 0⟩ Vec3.zero =
        (dampStep Vec3.zero).add (((moonCenter.sub ⟨10, 0, 0⟩).normalize).multiplyScalar 0.02) ∧
      (forcesVelocity 0 [⟨10, 0, 0⟩] ⟨110, 0, 0⟩ ⟨10, 0, 0⟩ Vec3.zero).length = 0.02) ∧
    forcesVelocity 0 [⟨1, 0, 0⟩] ⟨101, 0, 0⟩ ⟨1, 0, 0⟩ ⟨0, 1, 0⟩ = dampStep ⟨0, 1, 0⟩ := by
  constructor
  · have h := (attraction_one_sided ⟨10, 0, 0⟩ Vec3.zero ⟨110, 0, 0⟩
        (le_of_lt (Vec3.distanceTo_gt _ _ 4 (by norm_num)))).1
      (Vec3.distanceTo_gt _ _ 3 (by norm_num [moonCenter, Vec3.zero]))
    exact ⟨h.1, h.2 rfl⟩
  · refine (attraction_one_sided ⟨1, 0, 0⟩ ⟨0, 1, 0⟩ ⟨101, 0, 0⟩
      (le_of_lt (Vec3.distanceTo_gt _ _ 4 (by norm_num)))).2 ?_
    have hd1 : calculateDistance ⟨1, 0, 0⟩ moonCenter = 1 :=
      Vec3.distanceTo_val _ _ 1 (by norm_num) (by norm_num [moonCenter, Vec3.zero])
    rw [hd1]
    norm_num

/-- Spec claim C6: every zero-length direction normalizes to the zero vector
(so the embedding never divides by zero), and each degenerate force case — a
body exactly at the attractor center, exactly at the influence point, or
exactly coincident with every other registry entry — leaves the velocity
unchanged. -/
theorem degenerate_normalize_safe (v w m p : Vec3) (ps : List Vec3) (idx : ℕ) :
    (v.length = 0 → v.normalize = Vec3.zero) ∧
    gravityStep moonCenter w = w ∧
    (p = m → mouseStep m p w = w) ∧
    ((∀ q ∈ ps, q = p) → avoidStep idx ps p w = w) := by
  refine ⟨?_, ?_, ?_, ?_⟩
  · intro h
    rw [Vec3.normalize_of_length_zero v h]
    exact Vec3.eq_zero_of_length_eq_zero v h
  · rw [gravityStep, if_neg]
    rw [calculateDistance_self, MOON_RADIUS]
    norm_num
  · intro hpm
    subst hpm
    rw [mouseStep, if_pos]
    · exact nudge_coincident p w _
    · rw [calculateDistance_self, MOUSE_INFLUENCE_RADIUS]
      norm_num
  · intro hall
    rw [avoidStep]
    apply foldl_fixed_of_id
    intro acc b hb
    have hb2 : b.2 = p := hall b.2 (snd_mem_of_mem_enum ps b hb)
    simp only [hb2, calculateDistance_self]
    simp [OBJECT_SPACING, nudge_coincident]

/-- Claim C6 witness: the concrete degenerate inputs — the zero vector, a
body at the center, a body at the influence point, and a registry in which
every other entry coincides with the body — all leave the velocity alone. -/
theorem degenerate_normalize_safe_witness :
    ((Vec3.zero : Vec3).normalize = Vec3.zero) ∧
    gravityStep moonCenter ⟨1, 2, 3⟩ = ⟨1, 2, 3⟩ ∧
    mouseStep ⟨4, 5, 6⟩ ⟨4, 5, 6⟩ ⟨1, 2, 3⟩ = ⟨1, 2, 3⟩ ∧
    avoidStep 0 [⟨4, 5, 6⟩, ⟨4, 5, 6⟩] ⟨4, 5, 6⟩ ⟨1, 2, 3⟩ = ⟨1, 2, 3⟩ := by
  have h := degenerate_normalize_safe Vec3.zero ⟨1, 2, 3⟩ ⟨4, 5, 6⟩ ⟨4, 5, 6⟩
    [⟨4, 5, 6⟩, ⟨4, 5, 6⟩] 0
  refine ⟨h.1 Vec3.length_zero_vec, h.2.1, h.2.2.1 rfl, h.2.2.2 ?_⟩
  intro q hq
  rcases List.mem_cons.mp hq with h | h
  · exact h
  · exact List.mem_singleton.mp h

/-- Spec claim C9: the hover flag has no effect on motion.  Two frame
invocations that agree on position, velocity, registry contents and the
influence point but differ in the hover flag produce the same new position,
the same new velocity and the same committed registry; the flag only feeds
the spring scale target. -/
theorem hover_has_no_motion_effect (index : ℕ) (ps : List Vec3) (m p v : Vec3)
    (h1 h2 : Bool) :
    (objFrame index ps m ⟨p, v, h1⟩).1.position =
        (objFrame index ps m ⟨p, v, h2⟩).1.position ∧
    (objFrame index ps m ⟨p, v, h1⟩).1.velocity =
        (objFrame index ps m ⟨p, v, h2⟩).1.velocity ∧
    (objFrame index ps m ⟨p, v, h1⟩).2 = (objFrame index ps m ⟨p, v, h2⟩).2 :=
  ⟨rfl, rfl, rfl⟩

/-- Evaluates normalize on a vector whose length is the positive value c. -/
lemma normalize_val (a : Vec3) (c : ℝ) (hc : 0 < c)
    (h : a.x ^ 2 + a.y ^ 2 + a.z ^ 2 = c ^ 2) :
    a.normalize = a.multiplyScalar (1 / c) := by
  have hlen := Vec3.length_val a c hc.le h
  rw [Vec3.normalize, if_neg (by rw [hlen]; exact ne_of_gt hc), hlen, Vec3.divideScalar]

/-- updateBody written through forcesVelocity: the trigger uses the
frame-start distance; the shell point uses the integrated position. -/
lemma updateBody_eq (index : ℕ) (ps : List Vec3) (m p v : Vec3) :
    updateBody index ps m p v =
      if calculateDistance p moonCenter < MOON_RADIUS + 0.5 then
        ((p.add (forcesVelocity index ps m p v)).lerp
          (((p.add (forcesVelocity index ps m p v)).normalize).multiplyScalar
            (MOON_RADIUS + 0.5)) 0.2,
         (forcesVelocity index ps m p v).multiplyScalar 0.8)
      else (p.add (forcesVelocity index ps m p v), forcesVelocity index ps m p v) := rfl

/-- The avoidance loop never nudges when every other entry is out of range. -/
lemma avoidStep_no_close (idx : ℕ) (ps : List Vec3) (p w : Vec3)
    (h : ∀ pair ∈ ps.enum, pair.1 ≠ idx →
      ¬ calculateDistance p pair.2 < OBJECT_SPACING) :
    avoidStep idx ps p w = w := by
  rw [avoidStep]
  apply foldl_fixed_of_id
  intro acc b hb
  by_cases h1 : b.1 ≠ idx
  · rw [if_pos h1, if_neg (h b hb h1)]
  · rw [if_neg h1]

/-- In a two-body registry, body 0 checks only the entry at index 1. -/
lemma avoidStep_pair_first (p0 p1 w : Vec3) :
    avoidStep 0 [p0, p1] p0 w =
      if calculateDistance p0 p1 < OBJECT_SPACING then
        w.add (((p0.sub p1).normalize).multiplyScalar 0.02)
      else w := by
  simp [avoidStep, List.enum, List.enumFrom]

/-- In a two-body registry, body 1 checks only the entry at index 0. -/
lemma avoidStep_pair_second (q p1 w : Vec3) :
    avoidStep 1 [q, p1] p1 w =
      if calculateDistance p1 q < OBJECT_SPACING then
        w.add (((p1.sub q).normalize).multiplyScalar 0.02)
      else w := by
  simp [avoidStep, List.enum, List.enumFrom]

/-- The forces velocity of the frame-start state of claim C10's first
witness body: damping then gravity only. -/
lemma forces_c10_outer :
    forcesVelocity 0 [⟨4, 0, 0⟩] ⟨110, 0, 0⟩ ⟨4, 0, 0⟩ ⟨-1, 0, 0⟩ = ⟨-0.97, 0, 0⟩ := by
  rw [forcesVelocity]
  have hd : dampStep ⟨-1, 0, 0⟩ = ⟨-0.95, 0, 0⟩ := by
    rw [dampStep]
    ext <;> norm_num [Vec3.multiplyScalar, DAMPING]
  rw [hd]
  have hg : gravityStep ⟨4, 0, 0⟩ ⟨-0.95, 0, 0⟩ = ⟨-0.97, 0, 0⟩ := by
    rw [gravityStep, if_pos]
    · have hn : (moonCenter.sub ⟨4, 0, 0⟩).normalize =
          (moonCenter.sub ⟨4, 0, 0⟩).multiplyScalar (1 / 4) :=
        normalize_val _ 4 (by norm_num) (by norm_num [moonCenter, Vec3.zero, Vec3.sub])
      rw [hn]
      ext <;> norm_num [moonCenter, Vec3.zero, Vec3.sub, Vec3.multiplyScalar, Vec3.add,
        GRAVITY_STRENGTH]
    · rw [MOON_RADIUS]
      exact Vec3.distanceTo_gt _ _ 3 (by norm_num [moonCenter, Vec3.zero])
  rw [hg]
  have hm : mouseStep ⟨110, 0, 0⟩ ⟨4, 0, 0⟩ ⟨-0.97, 0, 0⟩ = ⟨-0.97, 0, 0⟩ := by
    rw [mouseStep, if_neg]
    rw [MOUSE_INFLUENCE_RADIUS]
    exact Vec3.distanceTo_not_lt _ _ 4 (by norm_num)
  rw [hm, avoidStep_singleton_self]

/-- The forces velocity of the frame-start state of claim C10's second
witness body: damping only, gravity off at distance exactly 3. -/
lemma forces_c10_inner :
    forcesVelocity 0 [⟨3, 0, 0⟩] ⟨110, 0, 0⟩ ⟨3, 0, 0⟩ ⟨2, 0, 0⟩ = ⟨1.9, 0, 0⟩ := by
  rw [forcesVelocity]
  have hd : dampStep ⟨2, 0, 0⟩ = ⟨1.9, 0, 0⟩ := by
    rw [dampStep]
    ext <;> norm_num [Vec3.multiplyScalar, DAMPING]
  rw [hd]
  have hg : gravityStep ⟨3, 0, 0⟩ ⟨1.9, 0, 0⟩ = ⟨1.9, 0, 0⟩ := by
    rw [gravityStep, if_neg]
    have h3 : calculateDistance ⟨3, 0, 0⟩ moonCenter = 3 :=
      Vec3.distanceTo_val _ _ 3 (by norm_num) (by norm_num [moonCenter, Vec3.zero])
    rw [h3, MOON_RADIUS]
    norm_num
  rw [hg]
  have hm : mouseStep ⟨110, 0, 0⟩ ⟨3, 0, 0⟩ ⟨1.9, 0, 0⟩ = ⟨1.9, 0, 0⟩ := by
    rw [mouseStep, if_neg]
    rw [MOUSE_INFLUENCE_RADIUS]
    exact Vec3.distanceTo_not_lt _ _ 4 (by norm_num)
  rw [hm, avoidStep_singleton_self]

/-- Spec claim C10: the surface-snap trigger uses the distance measured
before the position += velocity integration, while the shell point is built
from the post-integration position.  A body starting at distance at least
R + 0.5 gets no correction even when integration carries it inside the
shell; a body starting at distance below R + 0.5 gets the correction (with
the shell point at the integrated position) even when integration carries
it outside. -/
theorem surface_trigger_uses_pre_integration_distance (index : ℕ) (ps : List Vec3)
    (m p v : Vec3) :
    (3.5 ≤ calculateDistance p moonCenter →
      calculateDistance (p.add (forcesVelocity index ps m p v)) moonCenter < 3.5 →
      updateBody index ps m p v =
        (p.add (forcesVelocity index ps m p v), forcesVelocity index ps m p v)) ∧
    (calculateDistance p moonCenter < 3.5 →
      3.5 ≤ calculateDistance (p.add (forcesVelocity index ps m p v)) moonCenter →
      updateBody index ps m p v =
        ((p.add (forcesVelocity index ps m p v)).lerp
          (((p.add (forcesVelocity index ps m p v)).normalize).multiplyScalar 3.5) 0.2,
         (forcesVelocity index ps m p v).multiplyScalar 0.8)) := by
  have h35 : MOON_RADIUS + 0.5 = 3.5 := by norm_num [MOON_RADIUS]
  constructor
  · intro hpre _hpost
    rw [updateBody_eq, h35, if_neg (not_lt.mpr hpre)]
  · intro hpre _hpost
    rw [updateBody_eq, h35, if_pos hpre]

/-- Claim C10 witness: a body at distance 4 moving inward to distance 3.03
is left uncorrected, and a body at distance 3 moving outward to distance
4.9 is corrected. -/
theorem surface_trigger_uses_pre_integration_distance_witness :
    updateBody 0 [⟨4, 0, 0⟩] ⟨110, 0, 0⟩ ⟨4, 0, 0⟩ ⟨-1, 0, 0⟩ =
      ((⟨4, 0, 0⟩ : Vec3).add
          (forcesVelocity 0 [⟨4, 0, 0⟩] ⟨110, 0, 0⟩ ⟨4, 0, 0⟩ ⟨-1, 0, 0⟩),
        forcesVelocity 0 [⟨4, 0, 0⟩] ⟨110, 0, 0⟩ ⟨4, 0, 0⟩ ⟨-1, 0, 0⟩) ∧
    updateBody 0 [⟨3, 0, 0⟩] ⟨110, 0, 0⟩ ⟨3, 0, 0⟩ ⟨2, 0, 0⟩ =
      (((⟨3, 0, 0⟩ : Vec3).add
            (forcesVelocity 0 [⟨3, 0, 0⟩] ⟨110, 0, 0⟩ ⟨3, 0, 0⟩ ⟨2, 0, 0⟩)).lerp
          ((((⟨3, 0, 0⟩ : Vec3).add
              (forcesVelocity 0 [⟨3, 0, 0⟩] ⟨110, 0, 0⟩ ⟨3, 0, 0⟩ ⟨2, 0, 0⟩)).normalize).multiplyScalar
            3.5) 0.2,
        (forcesVelocity 0 [⟨3, 0, 0⟩] ⟨110, 0, 0⟩ ⟨3, 0, 0⟩ ⟨2, 0, 0⟩).multiplyScalar 0.8) := by
  constructor
  · apply (surface_trigger_uses_pre_integration_distance 0 [⟨4, 0, 0⟩]
      ⟨110, 0, 0⟩ ⟨4, 0, 0⟩ ⟨-1, 0, 0⟩).1
    · have h4 : calculateDistance ⟨4, 0, 0⟩ moonCenter = 4 :=
        Vec3.distanceTo_val _ _ 4 (by norm_num) (by norm_num [moonCenter, Vec3.zero])
      rw [h4]
      norm_num
    · rw [forces_c10_outer]
      have ha : (⟨4, 0, 0⟩ : Vec3).add ⟨-0.97, 0, 0⟩ = ⟨3.03, 0, 0⟩ := by
        ext <;> norm_num [Vec3.add]
      rw [ha]
      exact Vec3.distanceTo_lt _ _ 3.5 (by norm_num) (by norm_num [moonCenter, Vec3.zero])
  · apply (surface_trigger_uses_pre_integration_distance 0 [⟨3, 0, 0⟩]
      ⟨110, 0, 0⟩ ⟨3, 0, 0⟩ ⟨2, 0, 0⟩).2
    · have h3 : calculateDistance ⟨3, 0, 0⟩ moonCenter = 3 :=
        Vec3.distanceTo_val _ _ 3 (by norm_num) (by norm_num [moonCenter, Vec3.zero])
      rw [h3]
      norm_num
    · rw [forces_c10_inner]
      have ha : (⟨3, 0, 0⟩ : Vec3).add ⟨1.9, 0, 0⟩ = ⟨4.9, 0, 0⟩ := by
        ext <;> norm_num [Vec3.add]
      rw [ha]
      have h49 : calculateDistance ⟨4.9, 0, 0⟩ moonCenter = 4.9 :=
        Vec3.distanceTo_val _ _ 4.9 (by norm_num) (by norm_num [moonCenter, Vec3.zero])
      rw [h49]
      norm_num

/-- updateBodyPostTrigger written through forcesVelocity. -/
lemma updateBodyPostTrigger_eq (index : ℕ) (ps : List Vec3) (m p v : Vec3) :
    updateBodyPostTrigger index ps m p v =
      if calculateDistance (p.add (forcesVelocity index ps m p v)) moonCenter <
          MOON_RADIUS + 0.5 then
        ((p.add (forcesVelocity index ps m p v)).lerp
          (((p.add (forcesVelocity index ps m p v)).normalize).multiplyScalar
            (MOON_RADIUS + 0.5)) 0.2,
         (forcesVelocity index ps m p v).multiplyScalar 0.8)
      else (p.add (forcesVelocity index ps m p v), forcesVelocity index ps m p v) := rfl

/-- Claim C1 counterexample: a body at distance 4 whose integration carries
it to distance 3.03 shows that the implemented update differs from the
claimed rule in which the surface trigger is evaluated on the
post-integration position: the code leaves the velocity undamped by the 0.8
factor, the claimed rule scales it. -/
theorem surface_trigger_post_claim_counterexample :
    updateBody 0 [⟨4, 0, 0⟩] ⟨110, 0, 0⟩ ⟨4, 0, 0⟩ ⟨-1, 0, 0⟩ ≠
      updateBodyPostTrigger 0 [⟨4, 0, 0⟩] ⟨110, 0, 0⟩ ⟨4, 0, 0⟩ ⟨-1, 0, 0⟩ := by
  have ha : (⟨4, 0, 0⟩ : Vec3).add ⟨-0.97, 0, 0⟩ = ⟨3.03, 0, 0⟩ := by
    ext <;> norm_num [Vec3.add]
  have hcode : updateBody 0 [⟨4, 0, 0⟩] ⟨110, 0, 0⟩ ⟨4, 0, 0⟩ ⟨-1, 0, 0⟩ =
      (⟨3.03, 0, 0⟩, ⟨-0.97, 0, 0⟩) := by
    rw [updateBody_eq, forces_c10_outer, if_neg, ha]
    have h4 : calculateDistance ⟨4, 0, 0⟩ moonCenter = 4 :=
      Vec3.distanceTo_val _ _ 4 (by norm_num) (by norm_num [moonCenter, Vec3.zero])
    rw [h4, MOON_RADIUS]
    norm_num
  have hclaim : updateBodyPostTrigger 0 [⟨4, 0, 0⟩] ⟨110, 0, 0⟩ ⟨4, 0, 0⟩ ⟨-1, 0, 0⟩ =
      ((⟨3.03, 0, 0⟩ : Vec3).lerp (((⟨3.03, 0, 0⟩ : Vec3).normalize).multiplyScalar
          (MOON_RADIUS + 0.5)) 0.2,
        (⟨-0.97, 0, 0⟩ : Vec3).multiplyScalar 0.8) := by
    rw [updateBodyPostTrigger_eq, forces_c10_outer, ha, if_pos]
    have h303 : calculateDistance ⟨3.03, 0, 0⟩ moonCenter = 3.03 :=
      Vec3.distanceTo_val _ _ 3.03 (by norm_num) (by norm_num [moonCenter, Vec3.zero])
    rw [h303, MOON_RADIUS]
    norm_num
  rw [hcode, hclaim]
  intro h
  have hv := congrArg Prod.snd h
  simp only [Vec3.multiplyScalar] at hv
  have hx := congrArg Vec3.x hv
  norm_num at hx

/-- Claim C1 as amended: the surface correction is applied exactly when the
distance to the attractor center measured on the frame-start position
(before the position += velocity integration) is below R + 0.5; the shell
point itself is still computed from the post-integration position. -/
theorem surface_correction_iff_pre_distance (index : ℕ) (ps : List Vec3)
    (m p v : Vec3) :
    (calculateDistance p moonCenter < 3.5 →
      updateBody index ps m p v =
        ((p.add (forcesVelocity index ps m p v)).lerp
          (((p.add (forcesVelocity index ps m p v)).normalize).multiplyScalar 3.5) 0.2,
         (forcesVelocity index ps m p v).multiplyScalar 0.8)) ∧
    (3.5 ≤ calculateDistance p moonCenter →
      updateBody index ps m p v =
        (p.add (forcesVelocity index ps m p v), forcesVelocity index ps m p v)) := by
  have h35 : MOON_RADIUS + 0.5 = 3.5 := by norm_num [MOON_RADIUS]
  constructor
  · intro hpre
    rw [updateBody_eq, h35, if_pos hpre]
  · intro hpre
    rw [updateBody_eq, h35, if_neg (not_lt.mpr hpre)]

/-- Claim C1 (amended) witness: one body on the y-axis starting inside the
shell threshold is corrected, one starting outside is not. -/
theorem surface_correction_iff_pre_distance_witness :
    updateBody 0 [⟨0, 3, 0⟩] ⟨0, 110, 0⟩ ⟨0, 3, 0⟩ ⟨0, 2, 0⟩ =
      (((⟨0, 3, 0⟩ : Vec3).add
            (forcesVelocity 0 [⟨0, 3, 0⟩] ⟨0, 110, 0⟩ ⟨0, 3, 0⟩ ⟨0, 2, 0⟩)).lerp
          ((((⟨0, 3, 0⟩ : Vec3).add
              (forcesVelocity 0 [⟨0, 3, 0⟩] ⟨0, 110, 0⟩ ⟨0, 3, 0⟩ ⟨0, 2, 0⟩)).normalize).multiplyScalar
            3.5) 0.2,
        (forcesVelocity 0 [⟨0, 3, 0⟩] ⟨0, 110, 0⟩ ⟨0, 3, 0⟩ ⟨0, 2, 0⟩).multiplyScalar 0.8) ∧
    updateBody 0 [⟨0, 4, 0⟩] ⟨0, 110, 0⟩ ⟨0, 4, 0⟩ ⟨0, -1, 0⟩ =
      ((⟨0, 4, 0⟩ : Vec3).add
          (forcesVelocity 0 [⟨0, 4, 0⟩] ⟨0, 110, 0⟩ ⟨0, 4, 0⟩ ⟨0, -1, 0⟩),
        forcesVelocity 0 [⟨0, 4, 0⟩] ⟨0, 110, 0⟩ ⟨0, 4, 0⟩ ⟨0, -1, 0⟩) := by
  constructor
  · apply (surface_correction_iff_pre_distance 0 [⟨0, 3, 0⟩] ⟨0, 110, 0⟩
      ⟨0, 3, 0⟩ ⟨0, 2, 0⟩).1
    have h3 : calculateDistance ⟨0, 3, 0⟩ moonCenter = 3 :=
      Vec3.distanceTo_val _ _ 3 (by norm_num) (by norm_num [moonCenter, Vec3.zero])
    rw [h3]
    norm_num
  · apply (surface_correction_iff_pre_distance 0 [⟨0, 4, 0⟩] ⟨0, 110, 0⟩
      ⟨0, 4, 0⟩ ⟨0, -1, 0⟩).2
    have h4 : calculateDistance ⟨0, 4, 0⟩ moonCenter = 4 :=
      Vec3.distanceTo_val _ _ 4 (by norm_num) (by norm_num [moonCenter, Vec3.zero])
    rw [h4]
    norm_num

/-- Spec claim C3: within one frame bodies are processed in ascending index
order against the live registry.  Body 0 updates against both frame-start
positions (its avoidance nudge, triggered here by the spacing hypothesis,
is built from body 1's previous-frame position), while body 1 updates
against a registry already holding body 0's committed current-frame
position (its avoidance term is a function of that committed position). -/
theorem intra_frame_order_asymmetry (m p0 p1 v0 v1 : Vec3)
    (h : calculateDistance p0 p1 < 0.6) :
    framePass m [p0, p1] [v0, v1] =
      ([(updateBody 0 [p0, p1] m p0 v0).1,
        (updateBody 1 [(updateBody 0 [p0, p1] m p0 v0).1, p1] m p1 v1).1],
       [(updateBody 0 [p0, p1] m p0 v0).2,
        (updateBody 1 [(updateBody 0 [p0, p1] m p0 v0).1, p1] m p1 v1).2]) ∧
    forcesVelocity 0 [p0, p1] m p0 v0 =
      (mouseStep m p0 (gravityStep p0 (dampStep v0))).add
        (((p0.sub p1).normalize).multiplyScalar 0.02) ∧
    forcesVelocity 1 [(updateBody 0 [p0, p1] m p0 v0).1, p1] m p1 v1 =
      (if calculateDistance p1 (updateBody 0 [p0, p1] m p0 v0).1 < 0.6 then
        (mouseStep m p1 (gravityStep p1 (dampStep v1))).add
          (((p1.sub (updateBody 0 [p0, p1] m p0 v0).1).normalize).multiplyScalar 0.02)
      else mouseStep m p1 (gravityStep p1 (dampStep v1))) := by
  have h06 : OBJECT_SPACING = 0.6 := rfl
  refine ⟨rfl, ?_, ?_⟩
  · rw [forcesVelocity, avoidStep_pair_first, if_pos]
    rw [h06]
    exact h
  · rw [forcesVelocity, avoidStep_pair_second, h06]

/-- Claim C3 witness: two resting bodies 0.5 apart on the x-axis, influence
point at the origin. -/
theorem intra_frame_order_asymmetry_witness :
    framePass Vec3.zero [⟨10, 0, 0⟩, ⟨10.5, 0, 0⟩] [Vec3.zero, Vec3.zero] =
      ([(updateBody 0 [⟨10, 0, 0⟩, ⟨10.5, 0, 0⟩] Vec3.zero ⟨10, 0, 0⟩ Vec3.zero).1,
        (updateBody 1
          [(updateBody 0 [⟨10, 0, 0⟩, ⟨10.5, 0, 0⟩] Vec3.zero ⟨10, 0, 0⟩ Vec3.zero).1,
           ⟨10.5, 0, 0⟩] Vec3.zero ⟨10.5, 0, 0⟩ Vec3.zero).1],
       [(updateBody 0 [⟨10, 0, 0⟩, ⟨10.5, 0, 0⟩] Vec3.zero ⟨10, 0, 0⟩ Vec3.zero).2,
        (updateBody 1
          [(updateBody 0 [⟨10, 0, 0⟩, ⟨10.5, 0, 0⟩] Vec3.zero ⟨10, 0, 0⟩ Vec3.zero).1,
           ⟨10.5, 0, 0⟩] Vec3.zero ⟨10.5, 0, 0⟩ Vec3.zero).2]) ∧
    forcesVelocity 0 [⟨10, 0, 0⟩, ⟨10.5, 0, 0⟩] Vec3.zero ⟨10, 0, 0⟩ Vec3.zero =
      (mouseStep Vec3.zero ⟨10, 0, 0⟩ (gravityStep ⟨10, 0, 0⟩ (dampStep Vec3.zero))).add
        ((((⟨10, 0, 0⟩ : Vec3).sub ⟨10.5, 0, 0⟩).normalize).multiplyScalar 0.02) := by
  have h := intra_frame_order_asymmetry Vec3.zero ⟨10, 0, 0⟩ ⟨10.5, 0, 0⟩
    Vec3.zero Vec3.zero (Vec3.distanceTo_lt _ _ 0.6 (by norm_num) (by norm_num))
  exact ⟨h.1, h.2.1⟩

/-- One frame over a three-body registry, fully sequenced: each later body
reads the registry as already updated by the earlier ones. -/
lemma framePass_triple (m q0 q1 q2 w0 w1 w2 : Vec3) :
    framePass m [q0, q1, q2] [w0, w1, w2] =
      ([(updateBody 0 [q0, q1, q2] m q0 w0).1,
        (updateBody 1 [(updateBody 0 [q0, q1, q2] m q0 w0).1, q1, q2] m q1 w1).1,
        (updateBody 2 [(updateBody 0 [q0, q1, q2] m q0 w0).1,
            (updateBody 1 [(updateBody 0 [q0, q1, q2] m q0 w0).1, q1, q2] m q1 w1).1,
            q2] m q2 w2).1],
       [(updateBody 0 [q0, q1, q2] m q0 w0).2,
        (updateBody 1 [(updateBody 0 [q0, q1, q2] m q0 w0).1, q1, q2] m q1 w1).2,
        (updateBody 2 [(updateBody 0 [q0, q1, q2] m q0 w0).1,
            (updateBody 1 [(updateBody 0 [q0, q1, q2] m q0 w0).1, q1, q2] m q1 w1).1,
            q2] m q2 w2).2]) := rfl

/-- One update of a resting body at distance exactly 10 from the center,
with the influence point out of range and no avoidance nudge: the damped
zero velocity picks up only the gravity term and integration adds it to the
position. -/
lemma updateBody_far_gravity_only (idx : ℕ) (ps : List Vec3) (m p n1 : Vec3)
    (hdist : calculateDistance p moonCenter = 10)
    (hnorm : (moonCenter.sub p).normalize = n1)
    (hm : ¬ calculateDistance p m < 4)
    (havoid : avoidStep idx ps p (n1.multiplyScalar GRAVITY_STRENGTH) =
      n1.multiplyScalar GRAVITY_STRENGTH) :
    updateBody idx ps m p Vec3.zero =
      (p.add (n1.multiplyScalar GRAVITY_STRENGTH), n1.multiplyScalar GRAVITY_STRENGTH) := by
  have hfv : forcesVelocity idx ps m p Vec3.zero = n1.multiplyScalar GRAVITY_STRENGTH := by
    rw [forcesVelocity, dampStep, Vec3.zero_multiplyScalar, gravityStep, if_pos]
    · rw [hnorm, Vec3.zero_add_vec, mouseStep, if_neg]
      · exact havoid
      · rw [MOUSE_INFLUENCE_RADIUS]
        exact hm
    · rw [hdist, MOON_RADIUS]
      norm_num
  rw [updateBody_eq, hfv, if_neg]
  rw [hdist, MOON_RADIUS]
  norm_num

/-- Spec claim C2: three resting bodies at (10,0,0), (0,10,0), (0,0,10) with
the influence point farther than 4 from each: after one frame each body's
new position is its old position plus normalize(center - position) * 0.02 —
only the attraction acted, with no repulsion, avoidance or surface snap. -/
theorem end_to_end_attraction_only (m : Vec3)
    (h0 : 4 < calculateDistance ⟨10, 0, 0⟩ m)
    (h1 : 4 < calculateDistance ⟨0, 10, 0⟩ m)
    (h2 : 4 < calculateDistance ⟨0, 0, 10⟩ m) :
    framePass m [⟨10, 0, 0⟩, ⟨0, 10, 0⟩, ⟨0, 0, 10⟩] [Vec3.zero, Vec3.zero, Vec3.zero] =
      ([⟨9.98, 0, 0⟩, ⟨0, 9.98, 0⟩, ⟨0, 0, 9.98⟩],
       [⟨-0.02, 0, 0⟩, ⟨0, -0.02, 0⟩, ⟨0, 0, -0.02⟩]) ∧
    (⟨9.98, 0, 0⟩ : Vec3) =
      (⟨10, 0, 0⟩ : Vec3).add (((moonCenter.sub ⟨10, 0, 0⟩).normalize).multiplyScalar 0.02) ∧
    (⟨0, 9.98, 0⟩ : Vec3) =
      (⟨0, 10, 0⟩ : Vec3).add (((moonCenter.sub ⟨0, 10, 0⟩).normalize).multiplyScalar 0.02) ∧
    (⟨0, 0, 9.98⟩ : Vec3) =
      (⟨0, 0, 10⟩ : Vec3).add (((moonCenter.sub ⟨0, 0, 10⟩).normalize).multiplyScalar 0.02) := by
  have hn0 : (moonCenter.sub ⟨10, 0, 0⟩).normalize = ⟨-1, 0, 0⟩ := by
    rw [normalize_val (moonCenter.sub ⟨10, 0, 0⟩) 10 (by norm_num)
      (by norm_num [moonCenter, Vec3.zero, Vec3.sub])]
    ext <;> norm_num [moonCenter, Vec3.zero, Vec3.sub, Vec3.multiplyScalar]
  have hn1 : (moonCenter.sub ⟨0, 10, 0⟩).normalize = ⟨0, -1, 0⟩ := by
    rw [normalize_val (moonCenter.sub ⟨0, 10, 0⟩) 10 (by norm_num)
      (by norm_num [moonCenter, Vec3.zero, Vec3.sub])]
    ext <;> norm_num [moonCenter, Vec3.zero, Vec3.sub, Vec3.multiplyScalar]
  have hn2 : (moonCenter.sub ⟨0, 0, 10⟩).normalize = ⟨0, 0, -1⟩ := by
    rw [normalize_val (moonCenter.sub ⟨0, 0, 10⟩) 10 (by norm_num)
      (by norm_num [moonCenter, Vec3.zero, Vec3.sub])]
    ext <;> norm_num [moonCenter, Vec3.zero, Vec3.sub, Vec3.multiplyScalar]
  have hg0 : (⟨-1, 0, 0⟩ : Vec3).multiplyScalar GRAVITY_STRENGTH = ⟨-0.02, 0, 0⟩ := by
    ext <;> norm_num [Vec3.multiplyScalar, GRAVITY_STRENGTH]
  have hg1 : (⟨0, -1, 0⟩ : Vec3).multiplyScalar GRAVITY_STRENGTH = ⟨0, -0.02, 0⟩ := by
    ext <;> norm_num [Vec3.multiplyScalar, GRAVITY_STRENGTH]
  have hg2 : (⟨0, 0, -1⟩ : Vec3).multiplyScalar GRAVITY_STRENGTH = ⟨0, 0, -0.02⟩ := by
    ext <;> norm_num [Vec3.multiplyScalar, GRAVITY_STRENGTH]
  have hu0 : updateBody 0 [⟨10, 0, 0⟩, ⟨0, 10, 0⟩, ⟨0, 0, 10⟩] m ⟨10, 0, 0⟩ Vec3.zero =
      (⟨9.98, 0, 0⟩, ⟨-0.02, 0, 0⟩) := by
    have h := updateBody_far_gravity_only 0 [⟨10, 0, 0⟩, ⟨0, 10, 0⟩, ⟨0, 0, 10⟩] m
      ⟨10, 0, 0⟩ ⟨-1, 0, 0⟩
      (Vec3.distanceTo_val _ _ 10 (by norm_num) (by norm_num [moonCenter, Vec3.zero]))
      hn0 (not_lt.mpr (le_of_lt h0)) ?_
    · rw [hg0] at h
      rw [h]
      have ha : (⟨10, 0, 0⟩ : Vec3).add ⟨-0.02, 0, 0⟩ = ⟨9.98, 0, 0⟩ := by
        ext <;> norm_num [Vec3.add]
      rw [ha]
    · apply avoidStep_no_close
      intro pair hpair hne
      simp only [List.enum, List.enumFrom, List.mem_cons, List.not_mem_nil, or_false] at hpair
      rcases hpair with h | h | h
      · rw [h] at hne
        simp at hne
      · rw [h]
        exact Vec3.distanceTo_not_lt _ _ _ (by norm_num [OBJECT_SPACING])
      · rw [h]
        exact Vec3.distanceTo_not_lt _ _ _ (by norm_num [OBJECT_SPACING])
  have hu1 : updateBody 1 [⟨9.98, 0, 0⟩, ⟨0, 10, 0⟩, ⟨0, 0, 10⟩] m ⟨0, 10, 0⟩ Vec3.zero =
      (⟨0, 9.98, 0⟩, ⟨0, -0.02, 0⟩) := by
    have h := updateBody_far_gravity_only 1 [⟨9.98, 0, 0⟩, ⟨0, 10, 0⟩, ⟨0, 0, 10⟩] m
      ⟨0, 10, 0⟩ ⟨0, -1, 0⟩
      (Vec3.distanceTo_val _ _ 10 (by norm_num) (by norm_num [moonCenter, Vec3.zero]))
      hn1 (not_lt.mpr (le_of_lt h1)) ?_
    · rw [hg1] at h
      rw [h]
      have ha : (⟨0, 10, 0⟩ : Vec3).add ⟨0, -0.02, 0⟩ = ⟨0, 9.98, 0⟩ := by
        ext <;> norm_num [Vec3.add]
      rw [ha]
    · apply avoidStep_no_close
      intro pair hpair hne
      simp only [List.enum, List.enumFrom, List.mem_cons, List.not_mem_nil, or_false] at hpair
      rcases hpair with h | h | h
      · rw [h]
        exact Vec3.distanceTo_not_lt _ _ _ (by norm_num [OBJECT_SPACING])
      · rw [h] at hne
        simp at hne
      · rw [h]
        exact Vec3.distanceTo_not_lt _ _ _ (by norm_num [OBJECT_SPACING])
  have hu2 : updateBody 2 [⟨9.98, 0, 0⟩, ⟨0, 9.98, 0⟩, ⟨0, 0, 10⟩] m ⟨0, 0, 10⟩ Vec3.zero =
      (⟨0, 0, 9.98⟩, ⟨0, 0, -0.02⟩) := by
    have h := updateBody_far_gravity_only 2 [⟨9.98, 0, 0⟩, ⟨0, 9.98, 0⟩, ⟨0, 0, 10⟩] m
      ⟨0, 0, 10⟩ ⟨0, 0, -1⟩
      (Vec3.distanceTo_val _ _ 10 (by norm_num) (by norm_num [moonCenter, Vec3.zero]))
      hn2 (not_lt.mpr (le_of_lt h2)) ?_
    · rw [hg2] at h
      rw [h]
      have ha : (⟨0, 0, 10⟩ : Vec3).add ⟨0, 0, -0.02⟩ = ⟨0, 0, 9.98⟩ := by
        ext <;> norm_num [Vec3.add]
      rw [ha]
    · apply avoidStep_no_close
      intro pair hpair hne
      simp only [List.enum, List.enumFrom, List.mem_cons, List.not_mem_nil, or_false] at hpair
      rcases hpair with h | h | h
      · rw [h]
        exact Vec3.distanceTo_not_lt _ _ _ (by norm_num [OBJECT_SPACING])
      · rw [h]
        exact Vec3.distanceTo_not_lt _ _ _ (by norm_num [OBJECT_SPACING])
      · rw [h] at hne
        simp at hne
  refine ⟨?_, ?_, ?_, ?_⟩
  · have hu0fst : (updateBody 0 [⟨10, 0, 0⟩, ⟨0, 10, 0⟩, ⟨0, 0, 10⟩] m
        ⟨10, 0, 0⟩ Vec3.zero).1 = ⟨9.98, 0, 0⟩ := by rw [hu0]
    have hu0snd : (updateBody 0 [⟨10, 0, 0⟩, ⟨0, 10, 0⟩, ⟨0, 0, 10⟩] m
        ⟨10, 0, 0⟩ Vec3.zero).2 = ⟨-0.02, 0, 0⟩ := by rw [hu0]
    rw [framePass_triple, hu0fst, hu0snd]
    have hu1fst : (updateBody 1 [⟨9.98, 0, 0⟩, ⟨0, 10, 0⟩, ⟨0, 0, 10⟩] m
        ⟨0, 10, 0⟩ Vec3.zero).1 = ⟨0, 9.98, 0⟩ := by rw [hu1]
    have hu1snd : (updateBody 1 [⟨9.98, 0, 0⟩, ⟨0, 10, 0⟩, ⟨0, 0, 10⟩] m
        ⟨0, 10, 0⟩ Vec3.zero).2 = ⟨0, -0.02, 0⟩ := by rw [hu1]
    rw [hu1fst, hu1snd]
    have hu2fst : (updateBody 2 [⟨9.98, 0, 0⟩, ⟨0, 9.98, 0⟩, ⟨0, 0, 10⟩] m
        ⟨0, 0, 10⟩ Vec3.zero).1 = ⟨0, 0, 9.98⟩ := by rw [hu2]
    have hu2snd : (updateBody 2 [⟨9.98, 0, 0⟩, ⟨0, 9.98, 0⟩, ⟨0, 0, 10⟩] m
        ⟨0, 0, 10⟩ Vec3.zero).2 = ⟨0, 0, -0.02⟩ := by rw [hu2]
    rw [hu2fst, hu2snd]
  · rw [hn0]
    ext <;> norm_num [Vec3.add, Vec3.multiplyScalar]
  · rw [hn1]
    ext <;> norm_num [Vec3.add, Vec3.multiplyScalar]
  · rw [hn2]
    ext <;> norm_num [Vec3.add, Vec3.multiplyScalar]

/-- Claim C2 witness: the influence point (0, 0, 110) is farther than 4 from
all three bodies, and the frame moves each body 0.02 straight toward the
center. -/
theorem end_to_end_attraction_only_witness :
    framePass ⟨0, 0, 110⟩ [⟨10, 0, 0⟩, ⟨0, 10, 0⟩, ⟨0, 0, 10⟩]
        [Vec3.zero, Vec3.zero, Vec3.zero] =
      ([⟨9.98, 0, 0⟩, ⟨0, 9.98, 0⟩, ⟨0, 0, 9.98⟩],
       [⟨-0.02, 0, 0⟩, ⟨0, -0.02, 0⟩, ⟨0, 0, -0.02⟩]) :=
  (end_to_end_attraction_only ⟨0, 0, 110⟩
    (Vec3.distanceTo_gt _ _ 4 (by norm_num))
    (Vec3.distanceTo_gt _ _ 4 (by norm_num))
    (Vec3.distanceTo_gt _ _ 4 (by norm_num))).1

/-- Projection of the x field of a vector literal. -/
lemma x_mk (a b c : ℝ) : (⟨a, b, c⟩ : Vec3).x = a := rfl

/-- Projection of the y field of a vector literal. -/
lemma y_mk (a b c : ℝ) : (⟨a, b, c⟩ : Vec3).y = b := rfl

/-- Projection of the z field of a vector literal. -/
lemma z_mk (a b c : ℝ) : (⟨a, b, c⟩ : Vec3).z = c := rfl

/-- axisDistance on a vector literal. -/
lemma axisDistance_mk (a b c : ℝ) :
    axisDistance ⟨a, b, c⟩ = Real.sqrt (a ^ 2 + c ^ 2) := rfl

/-- A point on a ring of nonnegative radius r about the vertical axis has
horizontal distance r from the axis. -/
lemma axisDistance_ring (t r yv : ℝ) (hr : 0 ≤ r) :
    axisDistance ⟨Real.cos t * r, yv, Real.sin t * r⟩ = r := by
  rw [axisDistance_mk]
  have hcs : (Real.cos t * r) ^ 2 + (Real.sin t * r) ^ 2 = r ^ 2 := by
    have hps := Real.sin_sq_add_cos_sq t
    nlinarith [hps]
  rw [hcs, Real.sqrt_sq hr]

/-- The generator as three appended layer blocks, in loop order. -/
lemma generatePositions_split (rng : ℕ → ℝ) :
    generatePositions rng =
      ((List.range 16).map (fun i => layoutPosition rng 0 i) ++
        (List.range 16).map (fun i => layoutPosition rng 1 i)) ++
      (List.range 16).map (fun i => layoutPosition rng 2 i) := rfl

/-- One generated body, fully evaluated. -/
lemma layoutPosition_eval (rng : ℕ → ℝ) (layer i : ℕ) :
    layoutPosition rng layer i =
      ⟨Real.cos (((i : ℝ) / ((48 / 3 : ℕ) : ℝ)) * Real.pi * 2) *
          (5 + rng (2 * (layer * (48 / 3) + i)) * 2),
        (rng (2 * (layer * (48 / 3) + i) + 1) - 0.5) * 4 + (layer : ℝ) * 1.5,
        Real.sin (((i : ℝ) / ((48 / 3 : ℕ) : ℝ)) * Real.pi * 2) *
          (5 + rng (2 * (layer * (48 / 3) + i)) * 2)⟩ := rfl

/-- Reading a mapped range at an in-range index. -/
lemma getD_map_range (f : ℕ → Vec3) (n i : ℕ) (h : i < n) :
    ((List.range n).map f).getD i Vec3.zero = f i := by
  have hlen : i < ((List.range n).map f).length := by simpa using h
  rw [List.getD_eq_getElem _ _ hlen, List.getElem_map, List.getElem_range]

/-- Spec claim C8: for the fixed request of 48 bodies in 3 layers and any
random stream with values in [0, 1), the generator returns exactly 48
positions (the length not depending on the stream); entry 16 * layer + i is
the layer-layer ring body i, its horizontal distance from the vertical axis
is 5 plus at most 2 of random radius, and its vertical coordinate is within
2 of layerIndex * 1.5.  Every coordinate is a real number, so the modelled
output is finite by construction. -/
theorem layout_generator_shape (rng : ℕ → ℝ) (h : ∀ k, 0 ≤ rng k ∧ rng k < 1) :
    (generatePositions rng).length = 48 ∧
    (∀ rng2 : ℕ → ℝ, (generatePositions rng2).length = (generatePositions rng).length) ∧
    (∀ layer i, layer < 3 → i < 16 →
      (generatePositions rng).getD (16 * layer + i) Vec3.zero = layoutPosition rng layer i ∧
      5 ≤ axisDistance (layoutPosition rng layer i) ∧
      axisDistance (layoutPosition rng layer i) ≤ 7 ∧
      |(layoutPosition rng layer i).y - (layer : ℝ) * 1.5| ≤ 2) := by
  have hlen : ∀ r : ℕ → ℝ, (generatePositions r).length = 48 := by
    intro r
    rw [generatePositions_split]
    simp
  refine ⟨hlen rng, fun rng2 => by rw [hlen rng, hlen rng2], ?_⟩
  intro layer i hl hi
  constructor
  · rw [generatePositions_split]
    have h16 : ((List.range 16).map (fun j => layoutPosition rng 0 j)).length = 16 := by simp
    have h16b : ((List.range 16).map (fun j => layoutPosition rng 1 j)).length = 16 := by simp
    have h32 : (((List.range 16).map (fun j => layoutPosition rng 0 j)) ++
        ((List.range 16).map (fun j => layoutPosition rng 1 j))).length = 32 := by simp
    interval_cases layer
    · have hidx : 16 * 0 + i = i := by omega
      rw [hidx, List.getD_append _ _ _ _ (by rw [h32]; omega),
          List.getD_append _ _ _ _ (by rw [h16]; omega), getD_map_range _ _ _ hi]
    · have hidx : 16 * 1 + i = 16 + i := by omega
      rw [hidx, List.getD_append _ _ _ _ (by rw [h32]; omega),
          List.getD_append_right _ _ _ _ (by rw [h16]; omega), h16]
      have hsub : 16 + i - 16 = i := by omega
      rw [hsub, getD_map_range _ _ _ hi]
    · have hidx : 16 * 2 + i = 32 + i := by omega
      rw [hidx, List.getD_append_right _ _ _ _ (by rw [h32]; omega), h32]
      have hsub : 32 + i - 32 = i := by omega
      rw [hsub, getD_map_range _ _ _ hi]
  · obtain ⟨hu0, hu1⟩ := h (2 * (layer * (48 / 3) + i))
    obtain ⟨hv0, hv1⟩ := h (2 * (layer * (48 / 3) + i) + 1)
    have hr0 : (0 : ℝ) ≤ 5 + rng (2 * (layer * (48 / 3) + i)) * 2 := by linarith
    have hax : axisDistance (layoutPosition rng layer i) =
        5 + rng (2 * (layer * (48 / 3) + i)) * 2 := by
      rw [layoutPosition_eval, axisDistance_ring _ _ _ hr0]
    refine ⟨?_, ?_, ?_⟩
    · rw [hax]; linarith
    · rw [hax]; linarith
    · rw [layoutPosition_eval, y_mk, abs_le]
      constructor <;> linarith

/-- Claim C8 witness: the all-zeros random stream yields 48 positions, and
the body at layer 1 ring slot 2 sits on a radius-5 ring within 2 of height
1.5. -/
theorem layout_generator_shape_witness :
    (generatePositions (fun _ => (0 : ℝ))).length = 48 ∧
    5 ≤ axisDistance (layoutPosition (fun _ => (0 : ℝ)) 1 2) ∧
    axisDistance (layoutPosition (fun _ => (0 : ℝ)) 1 2) ≤ 7 ∧
    |(layoutPosition (fun _ => (0 : ℝ)) 1 2).y - ((1 : ℕ) : ℝ) * 1.5| ≤ 2 := by
  have h := layout_generator_shape (fun _ => 0) (fun k => ⟨le_refl 0, by norm_num⟩)
  have h12 := h.2.2 1 2 (by norm_num) (by norm_num)
  exact ⟨h.1, h12.2.1, h12.2.2.1, h12.2.2.2⟩
